import Mathlib

/-!
Shallow embedding of `Macaulay2/c/compat.h`, a platform-compatibility header.

The header has no runtime behaviour: its whole effect, given a build
configuration (which preprocessor macros the build-configuration step has
defined before the header is read), is

  * three `extern char …[]` declarations (`posfmt`, `errfmt`, `errfmtnc`);
  * macro definitions `TRUE`, `FALSE` (each guarded by `#ifndef`),
    `OKAY`, `ERROR` (unguarded);
  * a conditional definition of `__DARWIN__`;
  * a sequence of `#include` directives, some guarded by feature macros.

We model a build configuration as a structure recording, for each
preprocessor symbol the header consults (plus `HAVE_SYS_TYPES_H`, the usual
build-step symbol for `sys/types.h`, which as it turns out the header never
consults), whether it is defined, and for `TRUE`/`FALSE` the prior value if
any.  The header's effect is translated directive by directive.
-/

namespace Compat

/-- A header file named by an `#include` directive of `compat.h`. -/
inductive HeaderFile where
| gc_gc_h
| unistd_h
| sys_types_h
| types_h
| sys_stat_h
| stdlib_h
| string_h
| ctype_h
| memory_h
| stdio_h
| fcntl_h
| stdarg_h
| varargs_h
deriving DecidableEq

/-- The preprocessor state entering `compat.h`: which of the symbols the
header (or the surrounding claims) mention are defined, and the prior
values, if any, of the object-like macros `TRUE` and `FALSE`. -/
structure Config where
prTRUE : Option Int
prFALSE : Option Int
ppc : Bool
MACH : Bool
NO_CONFIG : Bool
HAVE_UNISTD_H : Bool
HAVE_SYS_TYPES_H : Bool
HAVE_SYSTYPES_H : Bool
HAVE_TYPES_H : Bool
HAVE_SYS_STAT_H : Bool
HAVE_STDLIB_H : Bool
HAVE_STRING_H : Bool
HAVE_MEMORY_H : Bool
STDC : Bool
deriving DecidableEq

/-- A file-scope array declaration of the header: its identifier, whether
the element type is `char`, whether the declaration is a definition
(allocates storage), and whether it carries an initializer. -/
structure ArrayDecl where
name : String
elementIsChar : Bool
isDefinition : Bool
hasInitializer : Bool
deriving DecidableEq

/-- Lines 4-6 of `compat.h`:
`extern char posfmt[]; extern char errfmt[]; extern char errfmtnc[];` —
three declarations with external linkage, no storage, no initializer. -/
def declaredArrays : List ArrayDecl :=
  [⟨"posfmt", true, false, false⟩,
   ⟨"errfmt", true, false, false⟩,
   ⟨"errfmtnc", true, false, false⟩]

/-- `#ifndef TRUE / #define TRUE 1 / #endif`: the header emits a definition
of `TRUE` exactly when none pre-exists. -/
def definesTRUE (c : Config) : Bool := c.prTRUE.isNone

/-- `#ifndef FALSE / #define FALSE 0 / #endif`. -/
def definesFALSE (c : Config) : Bool := c.prFALSE.isNone

/-- `#define OKAY 0` stands unguarded, so the directive is emitted in every
configuration. -/
def definesOKAY (_ : Config) : Bool := true

/-- `#define ERROR (-1)` stands unguarded. -/
def definesERROR (_ : Config) : Bool := true

/-- The value `TRUE` has after the header: the prior value if one existed,
else the `1` supplied by `#define TRUE 1`. -/
def trueValue (c : Config) : Int :=
  match c.prTRUE with
  | some v => v
  | none => 1

/-- The value `FALSE` has after the header: the prior value if one existed,
else the `0` supplied by `#define FALSE 0`. -/
def falseValue (c : Config) : Int :=
  match c.prFALSE with
  | some v => v
  | none => 0

/-- The value of `OKAY` after the header: `0` in every configuration. -/
def okayValue (_ : Config) : Int := 0

/-- The value of `ERROR` after the header: `(-1)` in every configuration. -/
def errorValue (_ : Config) : Int := -1

/-- `#if defined(__ppc__) && defined(__MACH__) / #define __DARWIN__ 1 /
#endif`: the value `__DARWIN__` is given by the header, or `none` when the
header leaves it undefined. -/
def darwinDef (c : Config) : Option Int :=
  if c.ppc && c.MACH then some 1 else none

/-- The includes of the `#ifndef NO_CONFIG` branch (lines 29-66), in
source order: seven feature-guarded includes interleaved with the
unguarded `ctype.h`, `stdio.h`, `fcntl.h`, and the `__STDC__`-selected
`stdarg.h` / `varargs.h`. -/
def configuredIncludes (c : Config) : List HeaderFile :=
  (if c.HAVE_UNISTD_H then [HeaderFile.unistd_h] else []) ++
  (if c.HAVE_SYSTYPES_H then [HeaderFile.sys_types_h] else []) ++
  (if c.HAVE_TYPES_H then [HeaderFile.types_h] else []) ++
  (if c.HAVE_SYS_STAT_H then [HeaderFile.sys_stat_h] else []) ++
  (if c.HAVE_STDLIB_H then [HeaderFile.stdlib_h] else []) ++
  (if c.HAVE_STRING_H then [HeaderFile.string_h] else []) ++
  HeaderFile.ctype_h ::
  (if c.HAVE_MEMORY_H then [HeaderFile.memory_h] else []) ++
  HeaderFile.stdio_h :: HeaderFile.fcntl_h ::
  (if c.STDC then [HeaderFile.stdarg_h] else [HeaderFile.varargs_h])

/-- The includes of the `#else` (NO_CONFIG) branch (lines 68-82): a fixed
list, no guards. -/
def noConfigIncludes : List HeaderFile :=
  [HeaderFile.unistd_h, HeaderFile.sys_types_h, HeaderFile.sys_stat_h,
   HeaderFile.stdlib_h, HeaderFile.string_h, HeaderFile.memory_h,
   HeaderFile.ctype_h, HeaderFile.stdio_h, HeaderFile.fcntl_h,
   HeaderFile.stdarg_h]

/-- All files `compat.h` includes in configuration `c`, in source order:
`#include <gc/gc.h>` (line 25, before and outside the `#ifndef NO_CONFIG`)
followed by the branch `#ifndef NO_CONFIG` selects. -/
def includes (c : Config) : List HeaderFile :=
  HeaderFile.gc_gc_h ::
    (if c.NO_CONFIG then noConfigIncludes else configuredIncludes c)

/- Concrete configurations used as witnesses and counterexamples.
Field order: prTRUE, prFALSE, ppc, MACH, NO_CONFIG, HAVE_UNISTD_H,
HAVE_SYS_TYPES_H, HAVE_SYSTYPES_H, HAVE_TYPES_H, HAVE_SYS_STAT_H,
HAVE_STDLIB_H, HAVE_STRING_H, HAVE_MEMORY_H, STDC. -/

/-- A configuration in which the build step defined every feature macro
(in particular the standard `HAVE_SYS_TYPES_H` but not the misspelled
`HAVE_SYSTYPES_H`), `NO_CONFIG` undefined. -/
def cfgAutoconf : Config :=
  ⟨none, none, false, false, false, true, true, false, false, true, true,
   true, true, true⟩

/-- A configuration with every symbol undefined. -/
def cfgBare : Config :=
  ⟨none, none, false, false, false, false, false, false, false, false,
   false, false, false, false⟩

/-- A configuration with `NO_CONFIG` defined and every feature macro
undefined. -/
def cfgNoConfig : Config :=
  ⟨none, none, false, false, true, false, false, false, false, false,
   false, false, false, false⟩

/-- A configuration in which `TRUE` and `FALSE` arrive already defined,
to values other than the header's own. -/
def cfgPredefined : Config :=
  ⟨some 42, some 7, false, false, false, false, false, false, false,
   false, false, false, false, true⟩

/-- Membership in a feature-guarded singleton include. -/
theorem mem_guard_single {α : Type} (a b : α) (p : Bool) :
    (a ∈ if p then ([b] : List α) else []) ↔ (p = true ∧ a = b) := by
  cases p <;> simp

/-- Membership in the `__STDC__`-selected pair of includes. -/
theorem mem_guard_pair {α : Type} (a b b' : α) (p : Bool) :
    (a ∈ if p then ([b] : List α) else [b']) ↔
      (p = true ∧ a = b ∨ p = false ∧ a = b') := by
  cases p <;> simp

/-- C1: when `NO_CONFIG` is not defined, each of `unistd.h`, `sys/stat.h`,
`stdlib.h`, `string.h`, `memory.h` is included if and only if the
corresponding feature macro `HAVE_UNISTD_H`, `HAVE_SYS_STAT_H`,
`HAVE_STDLIB_H`, `HAVE_STRING_H`, `HAVE_MEMORY_H` is defined. -/
theorem c1_feature_guarded_includes (c : Config) (h : c.NO_CONFIG = false) :
    (HeaderFile.unistd_h ∈ includes c ↔ c.HAVE_UNISTD_H = true) ∧
    (HeaderFile.sys_stat_h ∈ includes c ↔ c.HAVE_SYS_STAT_H = true) ∧
    (HeaderFile.stdlib_h ∈ includes c ↔ c.HAVE_STDLIB_H = true) ∧
    (HeaderFile.string_h ∈ includes c ↔ c.HAVE_STRING_H = true) ∧
    (HeaderFile.memory_h ∈ includes c ↔ c.HAVE_MEMORY_H = true) := by
  simp [includes, configuredIncludes, h, mem_guard_single, mem_guard_pair]

/-- Witness for C1 at the configuration `cfgAutoconf`, whose build step
defined `HAVE_UNISTD_H`: `unistd.h` is indeed included. -/
theorem c1_witness : HeaderFile.unistd_h ∈ includes cfgAutoconf :=
  (c1_feature_guarded_includes cfgAutoconf (by decide)).1.mpr (by decide)

/-- C2 counterexample: in the configuration `cfgAutoconf` the build step
defined the standard symbol `HAVE_SYS_TYPES_H` (and `NO_CONFIG` is
undefined), yet `sys/types.h` is not included, because the header tests
`HAVE_SYSTYPES_H` instead. -/
theorem c2_counterexample :
    cfgAutoconf.NO_CONFIG = false ∧
    cfgAutoconf.HAVE_SYS_TYPES_H = true ∧
    HeaderFile.sys_types_h ∉ includes cfgAutoconf := by
  decide

/-- C2 (amended): when `NO_CONFIG` is not defined, `sys/types.h` is
included if and only if `HAVE_SYSTYPES_H` (no underscore between `SYS`
and `TYPES`) is defined, and `types.h` if and only if `HAVE_TYPES_H` is;
the standard symbol `HAVE_SYS_TYPES_H` is never consulted. -/
theorem c2_systypes_guard (c : Config) (h : c.NO_CONFIG = false) :
    (HeaderFile.sys_types_h ∈ includes c ↔ c.HAVE_SYSTYPES_H = true) ∧
    (HeaderFile.types_h ∈ includes c ↔ c.HAVE_TYPES_H = true) := by
  simp [includes, configuredIncludes, h, mem_guard_single, mem_guard_pair]

/-- Witness for C2 (amended) at a configuration that did define
`HAVE_SYSTYPES_H`. -/
theorem c2_witness :
    HeaderFile.sys_types_h ∈
      includes ⟨none, none, false, false, false, false, false, true,
        false, false, false, false, false, false⟩ :=
  (c2_systypes_guard _ (by decide)).1.mpr (by decide)

/-- C3 counterexample: the claim that the inclusion of `gc/gc.h` is
conditional — that some build configuration omits it — is false: no
configuration omits it. -/
theorem c3_counterexample :
    ¬ ∃ c : Config, HeaderFile.gc_gc_h ∉ includes c := by
  intro hex
  obtain ⟨c, hc⟩ := hex
  exact hc (List.mem_cons_self _ _)

/-- C3 (amended): `gc/gc.h` is included unconditionally — line 25 of the
header sits before (and outside) the `#ifndef NO_CONFIG` block, so every
configuration includes it, independent of all feature macros. -/
theorem c3_gc_unconditional :
    ∀ c : Config, HeaderFile.gc_gc_h ∈ includes c :=
  fun _ => List.mem_cons_self _ _

/-- C4: in every configuration, `OKAY` is defined with value `0`, `ERROR`
with value `-1`, and the two values are distinct. -/
theorem c4_status_sentinels :
    ∀ c : Config,
      okayValue c = 0 ∧ errorValue c = -1 ∧ okayValue c ≠ errorValue c := by
  intro c
  refine ⟨rfl, rfl, ?_⟩
  simp [okayValue, errorValue]

/-- C5: `__DARWIN__` is defined (with value 1) if and only if both
`__ppc__` and `__MACH__` are defined; lacking either, the header leaves it
undefined. -/
theorem c5_darwin (c : Config) :
    (darwinDef c = some 1 ↔ (c.ppc = true ∧ c.MACH = true)) ∧
    ((c.ppc = false ∨ c.MACH = false) → darwinDef c = none) := by
  cases hp : c.ppc <;> cases hm : c.MACH <;>
    simp [darwinDef, hp, hm]

/-- Witness for C5 at `cfgBare`, which lacks `__ppc__`: the header leaves
`__DARWIN__` undefined there. -/
theorem c5_witness : darwinDef cfgBare = none :=
  (c5_darwin cfgBare).2 (Or.inl (by decide))

/-- C6 counterexample: the header does not consist only of macro
definitions and feature-guarded includes — it declares three arrays
(`posfmt`, `errfmt`, `errfmtnc`), and even in the bare configuration,
with every feature macro undefined, it includes `gc/gc.h`, `ctype.h`,
`stdio.h` and `fcntl.h` (so those includes are unconditional). -/
theorem c6_counterexample :
    declaredArrays ≠ [] ∧
    HeaderFile.gc_gc_h ∈ includes cfgBare ∧
    HeaderFile.ctype_h ∈ includes cfgBare ∧
    HeaderFile.stdio_h ∈ includes cfgBare ∧
    HeaderFile.fcntl_h ∈ includes cfgBare := by
  decide

/-- C6 (amended): the header's effect consists of the macro definitions,
the conditional OS-variant macro, the include block — in which `gc/gc.h`,
`ctype.h`, `stdio.h` and `fcntl.h` are included in every configuration
while the remaining standard headers are feature-guarded — and three
external character-array declarations. -/
theorem c6_header_effect :
    (∀ c : Config,
       HeaderFile.gc_gc_h ∈ includes c ∧
       HeaderFile.ctype_h ∈ includes c ∧
       HeaderFile.stdio_h ∈ includes c ∧
       HeaderFile.fcntl_h ∈ includes c) ∧
    declaredArrays.map ArrayDecl.name = ["posfmt", "errfmt", "errfmtnc"] := by
  refine ⟨fun c => ?_, by decide⟩
  cases h : c.NO_CONFIG <;>
    simp [includes, configuredIncludes, noConfigIncludes, h,
      mem_guard_single, mem_guard_pair]

/-- C7: the header declares `posfmt`, `errfmt`, `errfmtnc` as external
character arrays — declarations only, with no definition, initializer or
storage for any of them. -/
theorem c7_array_declarations :
    declaredArrays.map ArrayDecl.name = ["posfmt", "errfmt", "errfmtnc"] ∧
    (declaredArrays.all fun d =>
      d.elementIsChar && !d.isDefinition && !d.hasInitializer) = true := by
  decide

/-- C8: when `NO_CONFIG` is defined, the include list is one fixed list,
independent of every `HAVE_*` macro: the ten headers of the `#else`
branch (preceded by the unconditional `gc/gc.h`). -/
theorem c8_no_config_fixed (c : Config) (h : c.NO_CONFIG = true) :
    includes c =
      [HeaderFile.gc_gc_h, HeaderFile.unistd_h, HeaderFile.sys_types_h,
       HeaderFile.sys_stat_h, HeaderFile.stdlib_h, HeaderFile.string_h,
       HeaderFile.memory_h, HeaderFile.ctype_h, HeaderFile.stdio_h,
       HeaderFile.fcntl_h, HeaderFile.stdarg_h] := by
  simp [includes, noConfigIncludes, h]

/-- Witness for C8 at `cfgNoConfig`: with `NO_CONFIG` defined and every
`HAVE_*` macro undefined, all ten headers are nevertheless included. -/
theorem c8_witness :
    includes cfgNoConfig =
      [HeaderFile.gc_gc_h, HeaderFile.unistd_h, HeaderFile.sys_types_h,
       HeaderFile.sys_stat_h, HeaderFile.stdlib_h, HeaderFile.string_h,
       HeaderFile.memory_h, HeaderFile.ctype_h, HeaderFile.stdio_h,
       HeaderFile.fcntl_h, HeaderFile.stdarg_h] :=
  c8_no_config_fixed cfgNoConfig (by decide)

/-- C9: `TRUE` and `FALSE` are defined (to 1 and 0) only when no prior
definition exists, a pre-existing definition being left unchanged; `OKAY`
and `ERROR` are defined unconditionally. -/
theorem c9_ifndef_guards (c : Config) :
    (definesTRUE c = true ↔ c.prTRUE = none) ∧
    (definesFALSE c = true ↔ c.prFALSE = none) ∧
    (∀ v, c.prTRUE = some v → trueValue c = v) ∧
    (∀ v, c.prFALSE = some v → falseValue c = v) ∧
    (c.prTRUE = none → trueValue c = 1) ∧
    (c.prFALSE = none → falseValue c = 0) ∧
    definesOKAY c = true ∧ definesERROR c = true := by
  refine ⟨?_, ?_, ?_, ?_, ?_, ?_, rfl, rfl⟩ <;>
    first
      | simp [definesTRUE, definesFALSE, Option.isNone_iff_eq_none]
      | (intro v hv; simp [trueValue, falseValue, hv])
      | (intro hv; simp [trueValue, falseValue, hv])

/-- Witness for C9 at `cfgPredefined`, where `TRUE` arrives already
defined to 42: the header leaves that value unchanged. -/
theorem c9_witness : trueValue cfgPredefined = 42 :=
  (c9_ifndef_guards cfgPredefined).2.2.1 42 rfl

/-- C10: whenever the header itself supplies the `TRUE`/`FALSE`
definitions, `OKAY` equals `FALSE` (both 0) while `ERROR` differs from
both `TRUE` and `FALSE`: boolean truth and status success have opposite
polarity. -/
theorem c10_polarity (c : Config)
    (h1 : c.prTRUE = none) (h2 : c.prFALSE = none) :
    okayValue c = falseValue c ∧ okayValue c = 0 ∧
    errorValue c ≠ trueValue c ∧ errorValue c ≠ falseValue c := by
  simp [okayValue, falseValue, trueValue, errorValue, h1, h2]

/-- Witness for C10 at the bare configuration, where the header supplies
both definitions. -/
theorem c10_witness : okayValue cfgBare = falseValue cfgBare :=
  (c10_polarity cfgBare rfl rfl).1

end Compat
